import Mathlib

/-!
Verification of the usage-bridge dynamic extraction and normalization layer
(`apps/usage-bridge/claude_monitor_wrapper.py` and `apps/usage-bridge/models.py`).

Python semantics are shallowly embedded: Python values are the inductive
`PyVal`; attribute access returns `Except PyExc PyVal`, where an `.error`
models the lookup raising an exception (attribute missing raises
`AttributeError`; a property may raise any exception).  Python `int` is `Int`,
Python `float` is modelled as `ℚ` (no rounding is relevant to the code under
study), and `datetime` is `PyDatetime`, a timestamp in microseconds since the
Unix epoch plus an awareness flag (naive vs UTC-aware).  Fallible operations return
`Except`; functions that the source guarantees total return plain values.
-/

/-- Exception classes distinguished by the source code's handlers. -/
inductive PyExc where
  | attrError
  | typeError
  | valueError
  | validationError
  | otherError
deriving DecidableEq, Repr

/-- A Python `datetime`: microseconds since the Unix epoch (wall-clock
microseconds for a naive datetime) and whether the value is timezone-aware —
CPython datetimes have exactly microsecond resolution.  Two aware datetimes
are equal iff they denote the same instant; a naive and an aware datetime are
never equal, matching Python. -/
structure PyDatetime where
  ts : Int
  aware : Bool
deriving DecidableEq, Repr

/-- Dynamically-typed Python values as the wrapper sees them.  An `obj` carries
its attribute table: each attribute access either returns a value or raises an
exception (`.error`), modelling properties that raise. -/
inductive PyVal where
  | none
  | bool (b : Bool)
  | int (n : Int)
  | float (q : ℚ)
  | str (s : String)
  | dt (d : PyDatetime)
  | list (elems : List PyVal)
  | dict (entries : List (String × PyVal))
  | obj (attrs : List (String × Except PyExc PyVal))

/-- Raw attribute access, `getattr(obj, attr)` with no default: on an `obj`
it returns the table entry (which may itself be a raised exception from a
property); on every other value the domain attribute is absent, raising
`AttributeError`. -/
def pyGetattrRaw : PyVal → String → Except PyExc PyVal
  | PyVal.obj attrs, a =>
      match attrs.lookup a with
      | some r => r
      | Option.none => Except.error PyExc.attrError
  | _, _ => Except.error PyExc.attrError

/-- Three-argument `getattr(obj, attr, default)`: Python substitutes the
default only for `AttributeError`; any other exception propagates. -/
def pyGetattrD (obj : PyVal) (attr : String) (dflt : PyVal) : Except PyExc PyVal :=
  match pyGetattrRaw obj attr with
  | Except.ok v => Except.ok v
  | Except.error PyExc.attrError => Except.ok dflt
  | Except.error e => Except.error e

/-- Python truthiness (`bool(v)`), total in this model. -/
def pyTruthy : PyVal → Bool
  | PyVal.none => false
  | PyVal.bool b => b
  | PyVal.int n => n != 0
  | PyVal.float q => q != 0
  | PyVal.str s => s != ""
  | PyVal.dt _ => true
  | PyVal.list xs => !xs.isEmpty
  | PyVal.dict kvs => !kvs.isEmpty
  | PyVal.obj _ => true

/-- Python `str(v)`.  The rendering of composite values is abbreviated (the
real interpreter prints a repr with an address); the code under study only
ever feeds the result into an identifier field. -/
def pyStr : PyVal → String
  | PyVal.none => "None"
  | PyVal.bool b => if b then "True" else "False"
  | PyVal.int n => toString n
  | PyVal.float _ => "float"
  | PyVal.str s => s
  | PyVal.dt _ => "datetime"
  | PyVal.list _ => "list"
  | PyVal.dict _ => "dict"
  | PyVal.obj _ => "object"

/-- Python iteration (`for x in v`): lists yield elements, dicts yield keys,
strings yield one-character strings; other values raise `TypeError`. -/
def pyIter : PyVal → Except PyExc (List PyVal)
  | PyVal.list xs => Except.ok xs
  | PyVal.dict kvs => Except.ok (kvs.map fun kv => PyVal.str kv.1)
  | PyVal.str s => Except.ok (s.toList.map fun c => PyVal.str (String.mk [c]))
  | _ => Except.error PyExc.typeError

/-- Python `dict.get(key, default)` on the string-keyed dicts built by the
extractor. -/
def dictGet (m : List (String × PyVal)) (k : String) (dflt : PyVal) : PyVal :=
  match m.lookup k with
  | some v => v
  | Option.none => dflt

/-! ## Calendar arithmetic and `datetime` library functions

`datetime.fromtimestamp` and `datetime.fromisoformat` are CPython standard
library functions used by the wrapper; they are modelled here.  CPython
datetimes cover years 1 through 9999, so `fromtimestamp` raises for epoch
seconds outside that window. -/

/-- Days from 1970-01-01 to the civil date `y-m-d` (proleptic Gregorian).
Standard era-based conversion; all intermediate divisions have non-negative
operands for `y ≥ 1`. -/
def daysFromCivil (y : Int) (m d : Nat) : Int :=
  let yAdj : Int := if m ≤ 2 then y - 1 else y
  let era : Int := yAdj / 400
  let yoe : Int := yAdj - era * 400
  let mp : Int := ((m : Int) + 9) % 12
  let doy : Int := (153 * mp + 2) / 5 + (d : Int) - 1
  let doe : Int := yoe * 365 + yoe / 4 - yoe / 100 + doy
  era * 146097 + doe - 719468

/-- Epoch microseconds of `datetime.min` (0001-01-01T00:00:00). -/
def MIN_US : Int := -62135596800000000

/-- One microsecond past `datetime.max` (9999-12-31T23:59:59.999999): a
timestamp is representable iff `MIN_US ≤ t < MAX_US` microseconds. -/
def MAX_US : Int := 253402300800000000

/-- `datetime.fromtimestamp(t, tz=timezone.utc)` for `t` seconds since the
epoch: an aware datetime, raising for timestamps whose year falls outside
1..9999.  The seconds are converted to the datetime's microsecond grid by
flooring (the exact sub-microsecond rounding direction is immaterial to the
code under study). -/
def datetimeFromtimestampUtc (t : ℚ) : Except PyExc PyDatetime :=
  let usec : Int := Int.fdiv (t.num * 1000000) (t.den : Int)
  if MIN_US ≤ usec ∧ usec < MAX_US then Except.ok ⟨usec, true⟩
  else Except.error PyExc.valueError

/-- Length of a string, computed structurally from its character list (the
core `String.length` and friends recurse by well-founded byte positions,
which the kernel cannot evaluate; these structural versions keep every
closed term reducible). -/
def strLen (s : String) : Nat := s.data.length

/-- The first `n` characters of a string. -/
def strTake (s : String) (n : Nat) : String := String.mk (s.data.take n)

/-- The string with its first `n` characters removed. -/
def strDrop (s : String) (n : Nat) : String := String.mk (s.data.drop n)

/-- Whether every character of the string satisfies `p`. -/
def strAll (s : String) (p : Char → Bool) : Bool := s.data.all p

/-- Worker for `splitOnChar`: `acc` holds the current segment reversed. -/
def splitOnCharAux (c : Char) : List Char → List Char → List String
  | [], acc => [String.mk acc.reverse]
  | x :: xs, acc =>
      if x = c then String.mk acc.reverse :: splitOnCharAux c xs []
      else splitOnCharAux c xs (x :: acc)

/-- Split on a single-character separator; mirrors Python `str.split` with a
one-character argument (an empty input yields one empty segment). -/
def splitOnChar (s : String) (c : Char) : List String :=
  splitOnCharAux c s.data []

/-- Replace every occurrence of the character `c` by the string `r`; mirrors
Python `str.replace` for a one-character pattern. -/
def replaceChar (s : String) (c : Char) (r : String) : String :=
  String.mk (s.data.foldr (fun x acc => if x = c then r.data ++ acc else x :: acc) [])

/-- Numeric value of a string of ASCII digits. -/
def digitsVal (s : String) : Nat :=
  s.data.foldl (fun n c => n * 10 + (c.toNat - 48)) 0

/-- Parse a string that must consist of exactly `n` ASCII digits. -/
def parseNDigits (n : Nat) (s : String) : Option Nat :=
  if strLen s = n ∧ strAll s Char.isDigit then some (digitsVal s) else Option.none

/-- Gregorian leap year. -/
def isLeap (y : Nat) : Bool :=
  (y % 4 == 0 && y % 100 != 0) || y % 400 == 0

/-- Days in month `m` of year `y`. -/
def daysInMonth (y m : Nat) : Nat :=
  if m = 2 then (if isLeap y then 29 else 28)
  else if m = 4 ∨ m = 6 ∨ m = 9 ∨ m = 11 then 30
  else 31

/-- Parse a `YYYY-MM-DD` calendar date, validating ranges as CPython does. -/
def parseDate (s : String) : Option (Nat × Nat × Nat) := do
  guard (strLen s = 10)
  let y ← parseNDigits 4 (strTake s 4)
  guard (strTake (strDrop s 4) 1 = "-")
  let m ← parseNDigits 2 (strTake (strDrop s 5) 2)
  guard (strTake (strDrop s 7) 1 = "-")
  let d ← parseNDigits 2 (strDrop s 8)
  guard (1 ≤ y ∧ 1 ≤ m ∧ m ≤ 12 ∧ 1 ≤ d ∧ d ≤ daysInMonth y m)
  pure (y, m, d)

/-- Parse a fractional-second suffix of one to six digits into
microseconds. -/
def parseFrac (s : String) : Option Nat :=
  if 1 ≤ strLen s ∧ strLen s ≤ 6 ∧ strAll s Char.isDigit then
    some (digitsVal s * 10 ^ (6 - strLen s))
  else Option.none

/-- Parse `HH:MM`, `HH:MM:SS` or `HH:MM:SS.ffffff` into microseconds past
midnight. -/
def parseTime (s : String) : Option Nat := do
  let hh ← parseNDigits 2 (strTake s 2)
  guard (strTake (strDrop s 2) 1 = ":")
  let mm ← parseNDigits 2 (strTake (strDrop s 3) 2)
  let rest := strDrop s 5
  let sf ←
    if rest = "" then pure ((0 : Nat), (0 : Nat))
    else do
      guard (strTake rest 1 = ":")
      let ss ← parseNDigits 2 (strTake (strDrop rest 1) 2)
      let rest2 := strDrop rest 3
      if rest2 = "" then pure (ss, (0 : Nat))
      else do
        guard (strTake rest2 1 = ".")
        let f ← parseFrac (strDrop rest2 1)
        pure (ss, f)
  guard (hh ≤ 23 ∧ mm ≤ 59 ∧ sf.1 ≤ 59)
  pure ((hh * 3600 + mm * 60 + sf.1) * 1000000 + sf.2)

/-- Split a time-of-day string from its optional UTC-offset suffix; the sign
flag is `true` for a `+` offset.  Fails when more than one sign character is
present. -/
def splitOffset (s : String) : Option (String × Option (Bool × String)) :=
  match splitOnChar s '+' with
  | [t] =>
      match splitOnChar t '-' with
      | [t2] => some (t2, Option.none)
      | [t2, off] => some (t2, some (false, off))
      | _ => Option.none
  | [t, off] =>
      if (splitOnChar t '-').length = 1 then some (t, some (true, off))
      else Option.none
  | _ => Option.none

/-- Parse an `HH:MM` UTC-offset magnitude into microseconds. -/
def parseOffset (s : String) : Option Nat := do
  let hh ← parseNDigits 2 (strTake s 2)
  guard (strTake (strDrop s 2) 1 = ":")
  let mm ← parseNDigits 2 (strDrop s 3)
  guard (hh ≤ 23 ∧ mm ≤ 59)
  pure ((hh * 3600 + mm * 60) * 1000000)

/-- Parser behind `datetime.fromisoformat`: a calendar date, optionally
followed by a separator, a time of day and a UTC offset.  A date or
date-time with no offset yields a naive datetime; an offset yields an aware
datetime normalized to UTC. -/
def parseIso (s : String) : Option PyDatetime :=
  if strLen s = 10 then do
    let ymd ← parseDate s
    pure ⟨daysFromCivil ymd.1 ymd.2.1 ymd.2.2 * 86400000000, false⟩
  else do
    guard (10 < strLen s)
    let ymd ← parseDate (strTake s 10)
    let sep := strTake (strDrop s 10) 1
    guard (sep = "T" ∨ sep = " ")
    let toff ← splitOffset (strDrop s 11)
    let usec ← parseTime toff.1
    let base : Int := daysFromCivil ymd.1 ymd.2.1 ymd.2.2 * 86400000000
    match toff.2 with
    | Option.none => pure ⟨base + (usec : Int), false⟩
    | some so => do
        let off ← parseOffset so.2
        let offi : Int := if so.1 then (off : Int) else -(off : Int)
        pure ⟨base + (usec : Int) - offi, true⟩

/-- `datetime.fromisoformat(s)`: parse failure raises `ValueError`. -/
def datetimeFromisoformat (s : String) : Except PyExc PyDatetime :=
  match parseIso s with
  | some d => Except.ok d
  | Option.none => Except.error PyExc.valueError

/-! ## DynamicPropertyReader (claude_monitor_wrapper.py lines 34-77) -/

/-- `DynamicPropertyReader.safe_getattr(obj, attr, default)`: a
`getattr(obj, attr, default)` wrapped in a catch-all handler, so every
exception (not only `AttributeError`) falls back to the default.  Total by
construction: this function never raises. -/
def DynamicPropertyReader.safe_getattr (obj : PyVal) (attr : String)
    (dflt : PyVal := PyVal.none) : PyVal :=
  match pyGetattrD obj attr dflt with
  | Except.ok v => v
  | Except.error _ => dflt

/-- The body of the extraction loop for one field: split the path on dots and
walk each segment with a bare two-argument `getattr` call. -/
def extractFieldResult (obj : PyVal) (attr_path : String) : Except PyExc PyVal :=
  (splitOnChar attr_path '.').foldlM pyGetattrRaw obj

/-- `DynamicPropertyReader.extract_properties(obj, property_map)`: builds a
dict with one entry per declared field; a path walk that raises
`AttributeError` or `TypeError` stores `None` for that field, while any other
exception escapes the loop (the handler catches only those two classes),
discarding the partial dict. -/
def DynamicPropertyReader.extract_properties (obj : PyVal) :
    List (String × String) → Except PyExc (List (String × PyVal))
  | [] => Except.ok []
  | kp :: rest =>
    match extractFieldResult obj kp.2 with
    | Except.ok v =>
        (DynamicPropertyReader.extract_properties obj rest).map
          (fun m => (kp.1, v) :: m)
    | Except.error PyExc.attrError =>
        (DynamicPropertyReader.extract_properties obj rest).map
          (fun m => (kp.1, PyVal.none) :: m)
    | Except.error PyExc.typeError =>
        (DynamicPropertyReader.extract_properties obj rest).map
          (fun m => (kp.1, PyVal.none) :: m)
    | Except.error e => Except.error e

/-- `DynamicPropertyReader.convert_datetime(dt)`, following the source's rule
order: `None` passes through, a datetime is returned unchanged, an int or
float (Python `bool` included, being an `int` subclass) goes through
`datetime.fromtimestamp(dt, tz=timezone.utc)` with no handler, a string has
every `Z` replaced by `+00:00` and is then parsed, with only `ValueError`
caught; every other value yields `None`. -/
def DynamicPropertyReader.convert_datetime (dt : PyVal) :
    Except PyExc (Option PyDatetime) :=
  match dt with
  | PyVal.none => Except.ok Option.none
  | PyVal.dt d => Except.ok (some d)
  | PyVal.bool b => (datetimeFromtimestampUtc (if b then 1 else 0)).map some
  | PyVal.int n => (datetimeFromtimestampUtc (n : ℚ)).map some
  | PyVal.float q => (datetimeFromtimestampUtc q).map some
  | PyVal.str s =>
      match datetimeFromisoformat (replaceChar s 'Z' "+00:00") with
      | Except.ok d => Except.ok (some d)
      | Except.error PyExc.valueError => Except.ok Option.none
      | Except.error e => Except.error e
  | _ => Except.ok Option.none

/-! ## Pydantic output models (models.py)

Pydantic validates every field value supplied to a constructor: `None` is
rejected for non-Optional fields, numeric bounds declared on a field
(`ge`/`le`) are checked on every construction, and type mismatches raise
`ValidationError`.  Construction is therefore fallible and modelled in
`Except`; the zero-argument defaults always validate and are modelled as
plain structure defaults. -/

/-- `TokenCounts` (models.py lines 30-46): four counters defaulting to 0. -/
structure TokenCounts where
  input_tokens : Int := 0
  output_tokens : Int := 0
  cache_creation_tokens : Int := 0
  cache_read_tokens : Int := 0
deriving DecidableEq, Repr

/-- `TokenCounts.total_tokens`: a computed property, recomputed from the four
stored counters on every access (it is not a stored field). -/
def TokenCounts.total_tokens (tc : TokenCounts) : Int :=
  tc.input_tokens + tc.output_tokens + tc.cache_creation_tokens
    + tc.cache_read_tokens

/-- `BurnRate` (models.py lines 49-53): two required floats. -/
structure BurnRate where
  tokens_per_minute : ℚ
  cost_per_hour : ℚ
deriving DecidableEq, Repr

/-- `UsagePredictions` (models.py lines 132-136): two optional datetimes. -/
structure UsagePredictions where
  tokens_run_out : Option PyDatetime := Option.none
  limit_resets_at : Option PyDatetime := Option.none
deriving DecidableEq, Repr

/-- `UsageTotals` (models.py lines 144-150): four percentages, each declared
with `ge=0.0, le=100.0` and default 0.0. -/
structure UsageTotals where
  cost_percentage : ℚ := 0
  token_percentage : ℚ := 0
  message_percentage : ℚ := 0
  time_to_reset_percentage : ℚ := 0
deriving DecidableEq, Repr

/-- `SessionBlock` (models.py lines 56-68). -/
structure SessionBlock where
  id : String
  start_time : PyDatetime
  end_time : PyDatetime
  is_active : Bool := false
  token_counts : TokenCounts := {}
  cost_usd : ℚ := 0
  burn_rate : Option BurnRate := Option.none
  models : List String := []
  sent_messages_count : Int := 0
  per_model_stats : List (String × PyVal) := []

/-- `UsageStats` (models.py lines 153-160). -/
structure UsageStats where
  current_session : Option SessionBlock := Option.none
  recent_sessions : List SessionBlock := []
  predictions : UsagePredictions := {}
  burn_rate : BurnRate := ⟨0, 0⟩
  totals : UsageTotals := {}

/-- `UsageConfig` (models.py lines 86-100), as passed to the assembler. -/
structure UsageConfig where
  plan : String := "custom"
  custom_limit_tokens : Option Int := Option.none
  view : String := "realtime"
  timezone : String := "auto"
  time_format : String := "auto"
  theme : String := "auto"
  refresh_rate : Int := 10
  refresh_per_second : ℚ := 3 / 4
  reset_hour : Option Int := Option.none

/-- Pydantic validation of a `str` field: `None` and non-strings are
rejected. -/
def validateStr : PyVal → Except PyExc String
  | PyVal.str s => Except.ok s
  | _ => Except.error PyExc.validationError

/-- Pydantic validation of a `bool` field. -/
def validateBool : PyVal → Except PyExc Bool
  | PyVal.bool b => Except.ok b
  | _ => Except.error PyExc.validationError

/-- Pydantic validation of an `int` field. -/
def validateInt : PyVal → Except PyExc Int
  | PyVal.int n => Except.ok n
  | _ => Except.error PyExc.validationError

/-- Pydantic validation of a `float` field: an `int` is accepted and
widened. -/
def validateFloat : PyVal → Except PyExc ℚ
  | PyVal.float q => Except.ok q
  | PyVal.int n => Except.ok (n : ℚ)
  | _ => Except.error PyExc.validationError

/-- Pydantic validation of a `List[str]` field. -/
def validateStrList : PyVal → Except PyExc (List String)
  | PyVal.list xs => xs.mapM validateStr
  | _ => Except.error PyExc.validationError

/-- Pydantic validation of a `Dict[str, Any]` field. -/
def validateDict : PyVal → Except PyExc (List (String × PyVal))
  | PyVal.dict kvs => Except.ok kvs
  | _ => Except.error PyExc.validationError

/-- Pydantic validation of a percentage field declared `ge=0.0, le=100.0`:
the bound is checked on every supplied value, not only on defaults. -/
def validatePercent (v : PyVal) : Except PyExc ℚ := do
  let q ← validateFloat v
  if q < 0 ∨ 100 < q then Except.error PyExc.validationError else pure q

/-- `TokenCounts(input_tokens=..., output_tokens=..., ...)` with dynamic
argument values. -/
def mkTokenCounts (iv ov ccv crv : PyVal) : Except PyExc TokenCounts := do
  let i ← validateInt iv
  let o ← validateInt ov
  let cc ← validateInt ccv
  let cr ← validateInt crv
  pure ⟨i, o, cc, cr⟩

/-- `BurnRate(tokens_per_minute=..., cost_per_hour=...)` with dynamic
argument values. -/
def mkBurnRate (tpmv cphv : PyVal) : Except PyExc BurnRate := do
  let tpm ← validateFloat tpmv
  let cph ← validateFloat cphv
  pure ⟨tpm, cph⟩

/-- `UsageTotals(cost_percentage=..., ...)` with dynamic argument values:
each percentage is validated against the declared [0, 100] bound. -/
def mkUsageTotals (cpv tpv mpv trpv : PyVal) : Except PyExc UsageTotals := do
  let cp ← validatePercent cpv
  let tp ← validatePercent tpv
  let mp ← validatePercent mpv
  let trp ← validatePercent trpv
  pure ⟨cp, tp, mp, trp⟩

/-- `SessionBlock(...)` as called by the converter: datetimes and the nested
`TokenCounts`/`BurnRate` arrive already typed, the remaining arguments are
dynamic values requiring validation (in field declaration order). -/
def mkSessionBlock (idv : PyVal) (st et : PyDatetime) (activev : PyVal)
    (tc : TokenCounts) (costv : PyVal) (br : Option BurnRate)
    (modelsv smcv pmsv : PyVal) : Except PyExc SessionBlock := do
  let i ← validateStr idv
  let a ← validateBool activev
  let c ← validateFloat costv
  let ml ← validateStrList modelsv
  let smc ← validateInt smcv
  let pms ← validateDict pmsv
  pure { id := i, start_time := st, end_time := et, is_active := a,
         token_counts := tc, cost_usd := c, burn_rate := br, models := ml,
         sent_messages_count := smc, per_model_stats := pms }

/-! ## ClaudeMonitorWrapper converter and assembler
(claude_monitor_wrapper.py lines 241-395)

The wrapper's binding state is abstracted by a boolean `available`
(`self._is_available`); the external settings → data-manager → orchestrator
chain plus `orchestrator.update()` and `orchestrator.get_current_data()` is
abstracted by a `pipeline` function from the optional request configuration to
either a raised exception or the upstream aggregate object.  `datetime.utcnow`
is passed in as `now`. -/

/-- The `try` body of `convert_session_block` (lines 250-301): property
extraction, datetime normalization, nested TokenCounts and BurnRate
conversion, then the `SessionBlock(...)` construction. -/
def ClaudeMonitorWrapper.convertSessionBody (now : PyDatetime) (ms : PyVal) :
    Except PyExc SessionBlock := do
  let basic_props ← DynamicPropertyReader.extract_properties ms
    [("id", "id"), ("is_active", "is_active"), ("cost_usd", "cost_usd"),
     ("sent_messages_count", "sent_messages_count")]
  let start_time ← DynamicPropertyReader.convert_datetime
    (DynamicPropertyReader.safe_getattr ms "start_time" (PyVal.dt now))
  let end_time ← DynamicPropertyReader.convert_datetime
    (DynamicPropertyReader.safe_getattr ms "end_time" (PyVal.dt now))
  let mtc := DynamicPropertyReader.safe_getattr ms "token_counts"
  let token_counts ←
    if pyTruthy mtc then
      mkTokenCounts
        (DynamicPropertyReader.safe_getattr mtc "input_tokens" (PyVal.int 0))
        (DynamicPropertyReader.safe_getattr mtc "output_tokens" (PyVal.int 0))
        (DynamicPropertyReader.safe_getattr mtc "cache_creation_tokens" (PyVal.int 0))
        (DynamicPropertyReader.safe_getattr mtc "cache_read_tokens" (PyVal.int 0))
    else pure ({} : TokenCounts)
  let mbr := DynamicPropertyReader.safe_getattr ms "burn_rate"
  let burn_rate ←
    if pyTruthy mbr then
      (mkBurnRate
        (DynamicPropertyReader.safe_getattr mbr "tokens_per_minute" (PyVal.float 0))
        (DynamicPropertyReader.safe_getattr mbr "cost_per_hour" (PyVal.float 0))).map some
    else pure Option.none
  let models0 := DynamicPropertyReader.safe_getattr ms "models" (PyVal.list [])
  let models1 := if pyTruthy models0 then models0 else PyVal.list []
  let pms0 := DynamicPropertyReader.safe_getattr ms "per_model_stats" (PyVal.dict [])
  let pms1 := if pyTruthy pms0 then pms0 else PyVal.dict []
  mkSessionBlock (dictGet basic_props "id" (PyVal.str "unknown"))
    (start_time.getD now) (end_time.getD now)
    (dictGet basic_props "is_active" (PyVal.bool false))
    token_counts
    (dictGet basic_props "cost_usd" (PyVal.float 0))
    burn_rate models1
    (dictGet basic_props "sent_messages_count" (PyVal.int 0))
    pms1

/-- `ClaudeMonitorWrapper.convert_session_block` (lines 241-310): a falsy raw
session yields the sentinel block immediately; otherwise the conversion body
runs under a catch-all handler whose fallback rebuilds a minimal block whose
id is the string form of a bare three-argument `getattr` of the raw session's
id with default "error" — a call which re-raises any non-AttributeError
exception from a raising id property. -/
def ClaudeMonitorWrapper.convert_session_block (now : PyDatetime)
    (monitor_session : PyVal) : Except PyExc SessionBlock :=
  if pyTruthy monitor_session = false then
    Except.ok { id := "unknown", start_time := now, end_time := now }
  else
    match ClaudeMonitorWrapper.convertSessionBody now monitor_session with
    | Except.ok sb => Except.ok sb
    | Except.error _ =>
      match pyGetattrD monitor_session "id" (PyVal.str "error") with
      | Except.ok v =>
          Except.ok { id := pyStr v, start_time := now, end_time := now }
      | Except.error e => Except.error e

/-- The zero-valued degraded `UsageStats` literally constructed by the source
in the unavailable branch and the catch-all branch (lines 316-321 and
390-395). -/
def emptyUsageStats : UsageStats :=
  { current_session := Option.none, recent_sessions := [],
    predictions := {}, burn_rate := ⟨0, 0⟩, totals := {} }

/-- The `try` body of `get_usage_statistics` after the upstream pipeline has
produced `current_data` (lines 336-386): sequential extraction of the current
session, recent sessions, burn rate, predictions and totals, each guarded by
a truthiness test, with any raised exception aborting the whole assembly. -/
def ClaudeMonitorWrapper.assembleUsageStats (now : PyDatetime)
    (current_data : PyVal) : Except PyExc UsageStats := do
  let cs := DynamicPropertyReader.safe_getattr current_data "current_session"
  let current_session ←
    if pyTruthy cs then
      (ClaudeMonitorWrapper.convert_session_block now cs).map some
    else pure Option.none
  let rs := DynamicPropertyReader.safe_getattr current_data "recent_sessions"
    (PyVal.list [])
  let recent_sessions ←
    if pyTruthy rs then do
      let items ← pyIter rs
      items.mapM (ClaudeMonitorWrapper.convert_session_block now)
    else pure []
  let mbr := DynamicPropertyReader.safe_getattr current_data "burn_rate"
  let burn_rate ←
    if pyTruthy mbr then
      mkBurnRate
        (DynamicPropertyReader.safe_getattr mbr "tokens_per_minute" (PyVal.float 0))
        (DynamicPropertyReader.safe_getattr mbr "cost_per_hour" (PyVal.float 0))
    else pure (⟨0, 0⟩ : BurnRate)
  let pd := DynamicPropertyReader.safe_getattr current_data "predictions"
  let predictions ←
    if pyTruthy pd then do
      let t1 ← DynamicPropertyReader.convert_datetime
        (DynamicPropertyReader.safe_getattr pd "tokens_run_out")
      let t2 ← DynamicPropertyReader.convert_datetime
        (DynamicPropertyReader.safe_getattr pd "limit_resets_at")
      pure (⟨t1, t2⟩ : UsagePredictions)
    else pure ({} : UsagePredictions)
  let td := DynamicPropertyReader.safe_getattr current_data "totals"
  let totals ←
    if pyTruthy td then
      mkUsageTotals
        (DynamicPropertyReader.safe_getattr td "cost_percentage" (PyVal.float 0))
        (DynamicPropertyReader.safe_getattr td "token_percentage" (PyVal.float 0))
        (DynamicPropertyReader.safe_getattr td "message_percentage" (PyVal.float 0))
        (DynamicPropertyReader.safe_getattr td "time_to_reset_percentage" (PyVal.float 0))
    else pure ({} : UsageTotals)
  pure { current_session := current_session, recent_sessions := recent_sessions,
         predictions := predictions, burn_rate := burn_rate, totals := totals }

/-- `ClaudeMonitorWrapper.get_usage_statistics` (lines 312-395): unavailable
state returns the zero-valued stats immediately; otherwise the pipeline and
the assembly run under a top-level catch-all that converts any exception to
the same zero-valued stats.  Total by construction: this operation never
raises. -/
def ClaudeMonitorWrapper.get_usage_statistics (available : Bool)
    (pipeline : Option UsageConfig → Except PyExc PyVal)
    (now : PyDatetime) (config_params : Option UsageConfig) : UsageStats :=
  if available then
    match pipeline config_params with
    | Except.error _ => emptyUsageStats
    | Except.ok current_data =>
      match ClaudeMonitorWrapper.assembleUsageStats now current_data with
      | Except.error _ => emptyUsageStats
      | Except.ok stats => stats
  else emptyUsageStats

/-! ## Concrete inputs used by the claim theorems -/

/-- A fixed instant standing in for `datetime.utcnow()` in closed
evaluations. -/
def dt0 : PyDatetime := ⟨0, false⟩

/-- A raw session whose `id` attribute is a property that raises
`ValueError` on every access. -/
def ms5 : PyVal := PyVal.obj [("id", Except.error PyExc.valueError)]

/-- The end-to-end scenario object of the spec: `start_time=1700000000`, a
`token_counts` attribute with the four counters 10, 5, 0, 0, and no
`burn_rate` attribute (nor any of id, is_active, cost_usd,
sent_messages_count). -/
def ms9 : PyVal := PyVal.obj
  [("start_time", Except.ok (PyVal.int 1700000000)),
   ("token_counts", Except.ok (PyVal.obj
      [("input_tokens", Except.ok (PyVal.int 10)),
       ("output_tokens", Except.ok (PyVal.int 5)),
       ("cache_creation_tokens", Except.ok (PyVal.int 0)),
       ("cache_read_tokens", Except.ok (PyVal.int 0))]))]

/-- An object whose attribute `x` exists (with no attribute `y` below it) and
whose attribute `z` is a property raising `ValueError`. -/
def obj2cex : PyVal := PyVal.obj
  [("x", Except.ok (PyVal.obj [])), ("z", Except.error PyExc.valueError)]

/-- An object whose attribute `x` exists with no attribute `y` below it
(a plain `AttributeError` miss on the path), and whose attribute `z`
resolves to the integer 3. -/
def obj2w : PyVal := PyVal.obj
  [("x", Except.ok (PyVal.obj [])), ("z", Except.ok (PyVal.int 3))]

/-- An upstream aggregate whose `totals` carries an out-of-range
`cost_percentage` of 150. -/
def cd4 : PyVal := PyVal.obj
  [("totals", Except.ok (PyVal.obj
      [("cost_percentage", Except.ok (PyVal.float 150))]))]

/-- An upstream aggregate whose `totals` carries an in-range
`cost_percentage` of 42. -/
def cd4ok : PyVal := PyVal.obj
  [("totals", Except.ok (PyVal.obj
      [("cost_percentage", Except.ok (PyVal.float 42))]))]

/-- Whether one field's path walk ended in a result the extraction loop
handles locally: a success, or an exception of the two classes its handler
catches (`AttributeError`, `TypeError`). -/
def benignResult : Except PyExc PyVal → Bool
  | Except.ok _ => true
  | Except.error PyExc.attrError => true
  | Except.error PyExc.typeError => true
  | Except.error _ => false

/-- The per-field value the extraction loop stores when the path walk does
not escape the loop: the resolved value on success, `None` on a caught
failure. -/
def fieldOutcome (obj : PyVal) (path : String) : PyVal :=
  match extractFieldResult obj path with
  | Except.ok v => v
  | Except.error _ => PyVal.none

/-! ## Claim theorems -/

/-- C6: for every constructed `TokenCounts`, including the zero-valued
default, `total_tokens` equals the sum of the four counters; in the
embedding, as in the source, it is a computed property recomputed from the
four stored fields and never stored independently. -/
theorem C6_token_counts_total_invariant :
    (∀ i o cc cr : Int,
      (TokenCounts.mk i o cc cr).total_tokens = i + o + cc + cr)
    ∧ ({} : TokenCounts).total_tokens = 0 :=
  ⟨fun _ _ _ _ => rfl, rfl⟩

/-- C7: converting an absent (`None`) raw session returns, without raising,
a `SessionBlock` with the sentinel identifier "unknown", both timestamps set
to the current time, and the zero-valued `TokenCounts`. -/
theorem C7_convert_none_session_sentinel :
    ∀ now : PyDatetime, ∃ sb : SessionBlock,
      ClaudeMonitorWrapper.convert_session_block now PyVal.none = Except.ok sb
      ∧ sb.id = "unknown" ∧ sb.start_time = now ∧ sb.end_time = now
      ∧ sb.token_counts = {} ∧ sb.token_counts.total_tokens = 0
      ∧ sb.burn_rate = Option.none := by
  intro now
  exact ⟨{ id := "unknown", start_time := now, end_time := now },
    rfl, rfl, rfl, rfl, rfl, rfl, rfl⟩

/-- C8: `safe_getattr` never raises (it is total by construction in the
embedding) and returns the caller-supplied default both when the object is
`None` and when the raw attribute lookup fails with any exception class. -/
theorem C8_safe_getattr_default :
    ∀ (obj : PyVal) (attr : String) (dflt : PyVal),
      (obj = PyVal.none →
        DynamicPropertyReader.safe_getattr obj attr dflt = dflt)
      ∧ (∀ e, pyGetattrRaw obj attr = Except.error e →
          DynamicPropertyReader.safe_getattr obj attr dflt = dflt) := by
  intro obj attr dflt
  constructor
  · intro h
    subst h
    rfl
  · intro e h
    unfold DynamicPropertyReader.safe_getattr pyGetattrD
    rw [h]
    cases e <;> rfl

/-- C8 witness: the default comes back for a lookup on `None`. -/
theorem C8_safe_getattr_default_witness :
    DynamicPropertyReader.safe_getattr PyVal.none "x" (PyVal.int 7)
      = PyVal.int 7 :=
  (C8_safe_getattr_default PyVal.none "x" (PyVal.int 7)).1 rfl

/-- C10: in the unavailable state `get_usage_statistics` is a constant
function of its configuration argument: any two configurations (and any
pipeline and clock) produce the same structurally equal zero-valued
`UsageStats`, which carries no timestamps and no request-dependent data. -/
theorem C10_unavailable_config_independent :
    ∀ (pipeline : Option UsageConfig → Except PyExc PyVal) (now : PyDatetime)
      (c1 c2 : Option UsageConfig),
      ClaudeMonitorWrapper.get_usage_statistics false pipeline now c1
        = ClaudeMonitorWrapper.get_usage_statistics false pipeline now c2
      ∧ ClaudeMonitorWrapper.get_usage_statistics false pipeline now c1
        = emptyUsageStats
      ∧ emptyUsageStats.current_session = Option.none
      ∧ emptyUsageStats.recent_sessions = []
      ∧ emptyUsageStats.predictions.tokens_run_out = Option.none
      ∧ emptyUsageStats.predictions.limit_resets_at = Option.none := by
  intro pipeline now c1 c2
  exact ⟨rfl, rfl, rfl, rfl, rfl, rfl⟩

/-- C1: `get_usage_statistics` never raises (it is total by construction in
the embedding) and degrades to the zero-valued `UsageStats` whenever the
binding is unavailable, the upstream pipeline raises, or the assembly of the
result raises; the zero value has no current session, an empty session list,
a zero burn rate, absent prediction timestamps and four zero percentages. -/
theorem C1_get_statistics_total_degradation :
    ∀ (pipeline : Option UsageConfig → Except PyExc PyVal) (now : PyDatetime)
      (cfg : Option UsageConfig),
      (ClaudeMonitorWrapper.get_usage_statistics false pipeline now cfg
        = emptyUsageStats)
      ∧ (∀ e, pipeline cfg = Except.error e →
          ClaudeMonitorWrapper.get_usage_statistics true pipeline now cfg
            = emptyUsageStats)
      ∧ (∀ cd e, pipeline cfg = Except.ok cd →
          ClaudeMonitorWrapper.assembleUsageStats now cd = Except.error e →
          ClaudeMonitorWrapper.get_usage_statistics true pipeline now cfg
            = emptyUsageStats)
      ∧ emptyUsageStats.current_session = Option.none
      ∧ emptyUsageStats.recent_sessions = []
      ∧ emptyUsageStats.burn_rate.tokens_per_minute = 0
      ∧ emptyUsageStats.burn_rate.cost_per_hour = 0
      ∧ emptyUsageStats.predictions.tokens_run_out = Option.none
      ∧ emptyUsageStats.predictions.limit_resets_at = Option.none
      ∧ emptyUsageStats.totals.cost_percentage = 0
      ∧ emptyUsageStats.totals.token_percentage = 0
      ∧ emptyUsageStats.totals.message_percentage = 0
      ∧ emptyUsageStats.totals.time_to_reset_percentage = 0 := by
  intro pipeline now cfg
  refine ⟨rfl, ?_, ?_, rfl, rfl, rfl, rfl, rfl, rfl, rfl, rfl, rfl, rfl⟩
  · intro e h
    simp [ClaudeMonitorWrapper.get_usage_statistics, h]
  · intro cd e h1 h2
    simp [ClaudeMonitorWrapper.get_usage_statistics, h1, h2]

/-- C1 witness: a pipeline that raises yields the zero-valued stats. -/
theorem C1_get_statistics_total_degradation_witness :
    ClaudeMonitorWrapper.get_usage_statistics true
      (fun _ => Except.error PyExc.otherError) dt0 Option.none
      = emptyUsageStats :=
  (C1_get_statistics_total_degradation
    (fun _ => Except.error PyExc.otherError) dt0 Option.none).2.1
    PyExc.otherError rfl

/-- C5: refuted as stated — on a raw session whose `id` attribute is a
property raising `ValueError`, the conversion body raises (the extraction
loop catches only AttributeError and TypeError), the catch-all handler then
re-runs a bare `getattr` for the fallback id, and that lookup re-raises, so
`convert_session_block` propagates the exception to its caller instead of
returning the placeholder block. -/
theorem C5_convert_session_block_propagates :
    ClaudeMonitorWrapper.convert_session_block dt0 ms5
      = Except.error PyExc.valueError
    ∧ ∀ sb : SessionBlock,
        ClaudeMonitorWrapper.convert_session_block dt0 ms5 ≠ Except.ok sb := by
  refine ⟨rfl, ?_⟩
  intro sb h
  rw [show ClaudeMonitorWrapper.convert_session_block dt0 ms5
      = Except.error PyExc.valueError from rfl] at h
  exact Except.noConfusion h

/-- C9: refuted as stated — on the spec's end-to-end scenario object the
conversion does not surface the 15 extracted tokens: the extraction loop
stores `None` for the missing id (so the dict-get default "unknown" never
applies), the `SessionBlock` construction rejects `None` for the `id` field,
and the catch-all fallback returns a block with id "error", a zero-valued
`TokenCounts` (total 0, not 15) and a null burn rate. -/
theorem C9_end_to_end_scenario_bug :
    ∃ sb : SessionBlock,
      ClaudeMonitorWrapper.convert_session_block dt0 ms9 = Except.ok sb
      ∧ sb.id = "error"
      ∧ sb.token_counts.total_tokens = 0
      ∧ sb.token_counts.total_tokens ≠ 15
      ∧ sb.burn_rate = Option.none := by
  refine ⟨{ id := "error", start_time := dt0, end_time := dt0 },
    rfl, rfl, rfl, by decide, rfl⟩

/-- C2 counterexample: extraction is not abortion-free for every object — on
an object whose attribute `z` is a property raising `ValueError` (a class the
per-field handler does not catch), `extract_properties` raises instead of
returning any mapping, so the returned key set is not the input key set. -/
theorem C2_extract_properties_counterexample :
    DynamicPropertyReader.extract_properties obj2cex [("a", "x.y"), ("b", "z")]
      = Except.error PyExc.valueError
    ∧ ∀ m : List (String × PyVal),
        DynamicPropertyReader.extract_properties obj2cex [("a", "x.y"), ("b", "z")]
          ≠ Except.ok m := by
  refine ⟨rfl, ?_⟩
  intro m h
  rw [show DynamicPropertyReader.extract_properties obj2cex [("a", "x.y"), ("b", "z")]
      = Except.error PyExc.valueError from rfl] at h
  exact Except.noConfusion h

/-- C2 as amended: for every object whose per-field path walks end either in
success or in the two exception classes the loop handler catches
(AttributeError, TypeError), `extract_properties` returns a mapping with
exactly the input key list, each field resolved independently — a caught
failure stores null for that field only and leaves the others intact. -/
theorem C2_extract_properties_amended (obj : PyVal) (pm : List (String × String))
    (h : ∀ kp ∈ pm, benignResult (extractFieldResult obj kp.2) = true) :
    DynamicPropertyReader.extract_properties obj pm
      = Except.ok (pm.map fun kp => (kp.1, fieldOutcome obj kp.2))
    ∧ ∀ m, DynamicPropertyReader.extract_properties obj pm = Except.ok m →
        m.map Prod.fst = pm.map Prod.fst := by
  have main : ∀ pm2 : List (String × String),
      (∀ kp ∈ pm2, benignResult (extractFieldResult obj kp.2) = true) →
      DynamicPropertyReader.extract_properties obj pm2
        = Except.ok (pm2.map fun kp => (kp.1, fieldOutcome obj kp.2)) := by
    intro pm2
    induction pm2 with
    | nil => intro _; rfl
    | cons kp rest ih =>
      intro h2
      have hb : benignResult (extractFieldResult obj kp.2) = true :=
        h2 kp (List.mem_cons_self kp rest)
      have hrec := ih (fun kp2 hm => h2 kp2 (List.mem_cons_of_mem kp hm))
      unfold DynamicPropertyReader.extract_properties
      cases hc : extractFieldResult obj kp.2 with
      | ok v => simp [hrec, hc, Except.map, fieldOutcome]
      | error e =>
        cases e with
        | attrError => simp [hrec, hc, Except.map, fieldOutcome]
        | typeError => simp [hrec, hc, Except.map, fieldOutcome]
        | valueError => rw [hc] at hb; simp [benignResult] at hb
        | validationError => rw [hc] at hb; simp [benignResult] at hb
        | otherError => rw [hc] at hb; simp [benignResult] at hb
  refine ⟨main pm h, ?_⟩
  intro m hm
  rw [main pm h] at hm
  cases hm
  simp [List.map_map]

/-- C2 witness: one AttributeError miss on the path of field `a` yields null
for `a` only; field `b` still resolves. -/
theorem C2_extract_properties_amended_witness :
    DynamicPropertyReader.extract_properties obj2w [("a", "x.y"), ("b", "z")]
      = Except.ok [("a", PyVal.none), ("b", PyVal.int 3)] :=
  (C2_extract_properties_amended obj2w [("a", "x.y"), ("b", "z")] (by decide)).1

/-- C3 counterexample: the normalizer is not raise-free — an integer outside
the representable datetime range (here 10^12 seconds, year 33658) makes the
unguarded `datetime.fromtimestamp` call raise, and the exception escapes
`convert_datetime`. -/
theorem C3_convert_datetime_counterexample :
    DynamicPropertyReader.convert_datetime (PyVal.int 1000000000000)
      = Except.error PyExc.valueError
    ∧ ∀ r : Option PyDatetime,
        DynamicPropertyReader.convert_datetime (PyVal.int 1000000000000)
          ≠ Except.ok r := by
  refine ⟨rfl, ?_⟩
  intro r h
  rw [show DynamicPropertyReader.convert_datetime (PyVal.int 1000000000000)
      = Except.error PyExc.valueError from rfl] at h
  exact Except.noConfusion h

/-- C3 as amended: the ordered rules hold — null passes through, a datetime
is returned unchanged, an in-range integer is interpreted as seconds since
the epoch in UTC (with the spec's example 1704110400 mapping to
2024-01-01T12:00:00Z), a float goes through the same epoch conversion, a
string parse accepts a trailing Z as UTC designator and never raises (an
unparseable string yields null), and non-datetime shapes yield null; but a
numeric value outside the representable datetime range raises instead of
returning. -/
theorem C3_convert_datetime_amended :
    (DynamicPropertyReader.convert_datetime PyVal.none = Except.ok Option.none)
    ∧ (∀ d, DynamicPropertyReader.convert_datetime (PyVal.dt d)
        = Except.ok (some d))
    ∧ (∀ n : Int, -62135596800 ≤ n → n < 253402300800 →
        DynamicPropertyReader.convert_datetime (PyVal.int n)
          = Except.ok (some ⟨n * 1000000, true⟩))
    ∧ (∀ n : Int, n < -62135596800 ∨ 253402300799 < n →
        DynamicPropertyReader.convert_datetime (PyVal.int n)
          = Except.error PyExc.valueError)
    ∧ (∀ q : ℚ, DynamicPropertyReader.convert_datetime (PyVal.float q)
        = (datetimeFromtimestampUtc q).map some)
    ∧ (DynamicPropertyReader.convert_datetime (PyVal.int 1704110400)
        = Except.ok (some ⟨1704110400000000, true⟩))
    ∧ (DynamicPropertyReader.convert_datetime (PyVal.str "2024-01-01T12:00:00Z")
        = DynamicPropertyReader.convert_datetime (PyVal.int 1704110400))
    ∧ (∀ s : String, ∃ r, DynamicPropertyReader.convert_datetime (PyVal.str s)
        = Except.ok r)
    ∧ (DynamicPropertyReader.convert_datetime (PyVal.str "not-a-date")
        = Except.ok Option.none)
    ∧ (∀ xs, DynamicPropertyReader.convert_datetime (PyVal.list xs)
        = Except.ok Option.none)
    ∧ (∀ kvs, DynamicPropertyReader.convert_datetime (PyVal.dict kvs)
        = Except.ok Option.none)
    ∧ (∀ attrs, DynamicPropertyReader.convert_datetime (PyVal.obj attrs)
        = Except.ok Option.none) := by
  refine ⟨rfl, fun d => rfl, ?_, ?_, fun q => rfl, rfl, rfl, ?_, rfl,
    fun xs => rfl, fun kvs => rfl, fun attrs => rfl⟩
  · intro n h1 h2
    have hcast : ((n : ℚ)).num = n := Rat.num_intCast n
    have hden : ((n : ℚ)).den = 1 := Rat.den_intCast n
    have hif : MIN_US ≤ n * 1000000 ∧ n * 1000000 < MAX_US := by
      unfold MIN_US MAX_US
      omega
    simp [DynamicPropertyReader.convert_datetime, datetimeFromtimestampUtc,
      hcast, hden, hif, Except.map]
  · intro n h
    have hcast : ((n : ℚ)).num = n := Rat.num_intCast n
    have hden : ((n : ℚ)).den = 1 := Rat.den_intCast n
    have hif : ¬ (MIN_US ≤ n * 1000000 ∧ n * 1000000 < MAX_US) := by
      unfold MIN_US MAX_US
      omega
    simp [DynamicPropertyReader.convert_datetime, datetimeFromtimestampUtc,
      hcast, hden, hif, Except.map]
  · intro s
    cases hp : parseIso (replaceChar s 'Z' "+00:00") with
    | some d =>
        exact ⟨some d, by
          simp [DynamicPropertyReader.convert_datetime, datetimeFromisoformat, hp]⟩
    | none =>
        exact ⟨Option.none, by
          simp [DynamicPropertyReader.convert_datetime, datetimeFromisoformat, hp]⟩

/-- C3 witness: the in-range integer rule at the spec's own example. -/
theorem C3_convert_datetime_amended_witness :
    DynamicPropertyReader.convert_datetime (PyVal.int 1704110400)
      = Except.ok (some ⟨1704110400000000, true⟩) :=
  C3_convert_datetime_amended.2.2.1 1704110400 (by decide) (by decide)

/-- C4 counterexample: an out-of-range upstream percentage is not passed
through — constructing `UsageTotals` with cost_percentage 150 fails the
declared [0, 100] bound, and end to end the assembler returns the zero-valued
stats, whose cost_percentage is 0, not 150. -/
theorem C4_totals_passthrough_counterexample :
    mkUsageTotals (PyVal.float 150) (PyVal.float 0) (PyVal.float 0) (PyVal.float 0)
      = Except.error PyExc.validationError
    ∧ ClaudeMonitorWrapper.get_usage_statistics true (fun _ => Except.ok cd4)
        dt0 Option.none = emptyUsageStats
    ∧ (ClaudeMonitorWrapper.get_usage_statistics true (fun _ => Except.ok cd4)
        dt0 Option.none).totals.cost_percentage ≠ 150 := by
  refine ⟨rfl, rfl, ?_⟩
  rw [show (ClaudeMonitorWrapper.get_usage_statistics true (fun _ => Except.ok cd4)
      dt0 Option.none).totals.cost_percentage = 0 from rfl]
  norm_num

/-- C4 as amended: percentages outside [0, 100] are indeed not clamped, but
neither are they passed through — the pydantic bound on `UsageTotals` is
checked on every supplied value (not only on the locally-constructed
defaults), the construction raises, and the top-level handler turns the whole
call into the zero-valued stats; an in-range upstream value (42) is passed
through unchanged. -/
theorem C4_totals_amended :
    (∀ (q : ℚ) (y z w : PyVal), q < 0 ∨ 100 < q →
        mkUsageTotals (PyVal.float q) y z w = Except.error PyExc.validationError)
    ∧ (∀ (pipeline : Option UsageConfig → Except PyExc PyVal) (now : PyDatetime)
        (cfg : Option UsageConfig) (cd : PyVal),
        pipeline cfg = Except.ok cd →
        ClaudeMonitorWrapper.assembleUsageStats now cd
          = Except.error PyExc.validationError →
        ClaudeMonitorWrapper.get_usage_statistics true pipeline now cfg
          = emptyUsageStats)
    ∧ (ClaudeMonitorWrapper.get_usage_statistics true (fun _ => Except.ok cd4ok)
        dt0 Option.none).totals.cost_percentage = 42 := by
  refine ⟨?_, ?_, rfl⟩
  · intro q y z w h
    have hv : validatePercent (PyVal.float q) = Except.error PyExc.validationError := by
      show (if q < 0 ∨ 100 < q then Except.error PyExc.validationError
            else pure q) = Except.error PyExc.validationError
      exact if_pos h
    unfold mkUsageTotals
    rw [hv]
    rfl
  · intro pipeline now cfg cd h1 h2
    simp [ClaudeMonitorWrapper.get_usage_statistics, h1, h2]

/-- C4 witness: the amended behavior at cost_percentage 150. -/
theorem C4_totals_amended_witness :
    mkUsageTotals (PyVal.float 150) (PyVal.float 0) (PyVal.float 0) (PyVal.float 0)
      = Except.error PyExc.validationError
    ∧ ClaudeMonitorWrapper.get_usage_statistics true (fun _ => Except.ok cd4)
        dt0 Option.none = emptyUsageStats :=
  ⟨C4_totals_amended.1 150 (PyVal.float 0) (PyVal.float 0) (PyVal.float 0)
      (Or.inr (by norm_num)),
   C4_totals_amended.2.1 (fun _ => Except.ok cd4) dt0 Option.none cd4 rfl rfl⟩
